import Mathlib

/-!
# Verification of the serial TTY transport subsystem

Shallow embedding of `src/serial_tty/mod.rs`: the configuration model
(`SerialTtyOptions`), device enumeration and resolution, quirk routing for
Prolific USB-serial bridges on Apple platforms, the platform opener, and the
transport handle (`SerialTty`) with its no-op geometry-change hook.

External OS and library calls (`mio_serial::available_ports`,
`mio_serial::SerialStream::open`, and the quirk open path) are modelled as an
environment of oracles (`OsEnv`); `new` additionally returns the trace of OS
calls it performed, so that statements such as "no OS open call is attempted"
are expressible.  Machine integers (`u32` baud rates, `u16` window geometry)
carry no arithmetic in this code, so they are embedded as `Nat`.
-/

namespace SerialTtySpec

/-- The target operating systems distinguished by the source's conditional
compilation (`target_os` values that appear in `cfg` attributes), plus a
catch-all for every other platform. -/
inductive TargetOS
  | macos
  | linux
  | freebsd
  | openbsd
  | windows
  | ios
  | other
deriving DecidableEq

/-- Per-platform default device path, from the `DEFAULT_TTY_PATH` constants:
macOS gets "/dev/cu.usbserial-2110", Linux "/dev/ttyUSB0", FreeBSD "/dev/cuaU0",
OpenBSD "/dev/ttyU0", Windows "COM3", and every platform not in that list
(including iOS) "/dev/ttyS0". -/
def DEFAULT_TTY_PATH : TargetOS → String
  | TargetOS.macos => "/dev/cu.usbserial-2110"
  | TargetOS.linux => "/dev/ttyUSB0"
  | TargetOS.freebsd => "/dev/cuaU0"
  | TargetOS.openbsd => "/dev/ttyU0"
  | TargetOS.windows => "COM3"
  | TargetOS.ios => "/dev/ttyS0"
  | TargetOS.other => "/dev/ttyS0"

/-- `const DEFAULT_BAUDRATE: u32 = 115200;` -/
def DEFAULT_BAUDRATE : Nat := 115200

/-- `mio_serial::DataBits`. -/
inductive DataBits
  | Five
  | Six
  | Seven
  | Eight
deriving DecidableEq

/-- `mio_serial::FlowControl`. -/
inductive FlowControl
  | None
  | Software
  | Hardware
deriving DecidableEq

/-- `mio_serial::Parity`. -/
inductive Parity
  | None
  | Odd
  | Even
deriving DecidableEq

/-- `mio_serial::StopBits`. -/
inductive StopBits
  | One
  | Two
deriving DecidableEq

/-- `std::time::Duration`, embedded as a number of nanoseconds; the source only
ever constructs `Duration::from_millis(0)` and passes durations through
opaquely. -/
abbrev Duration := Nat

/-- The configuration struct `SerialTtyOptions`. -/
structure SerialTtyOptions where
  name : String
  baud_rate : Nat
  data_bits : DataBits
  flow_control : FlowControl
  parity : Parity
  stop_bits : StopBits
  timeout : Duration
  dtr_on_open : Option Bool
deriving DecidableEq

/-- `impl Default for SerialTtyOptions`, parameterised by the build's target
platform (which selects `DEFAULT_TTY_PATH`). -/
def SerialTtyOptions.default (os : TargetOS) : SerialTtyOptions :=
  { name := DEFAULT_TTY_PATH os
    baud_rate := DEFAULT_BAUDRATE
    data_bits := DataBits.Eight
    flow_control := FlowControl.None
    parity := Parity.None
    stop_bits := StopBits.One
    timeout := 0
    dtr_on_open := some true }

/-- `SerialTtyOptions::set_name` (consumes `self`, returns the updated value). -/
def SerialTtyOptions.set_name (c : SerialTtyOptions) (path : String) :
    SerialTtyOptions :=
  { c with name := path }

/-- `SerialTtyOptions::set_baud_rate`. -/
def SerialTtyOptions.set_baud_rate (c : SerialTtyOptions) (baud_rate : Nat) :
    SerialTtyOptions :=
  { c with baud_rate := baud_rate }

/-- `SerialTtyOptions::set_data_bits`. -/
def SerialTtyOptions.set_data_bits (c : SerialTtyOptions) (data_bits : DataBits) :
    SerialTtyOptions :=
  { c with data_bits := data_bits }

/-- `SerialTtyOptions::set_flow_control`. -/
def SerialTtyOptions.set_flow_control (c : SerialTtyOptions)
    (flow_control : FlowControl) : SerialTtyOptions :=
  { c with flow_control := flow_control }

/-- `SerialTtyOptions::set_parity`. -/
def SerialTtyOptions.set_parity (c : SerialTtyOptions) (parity : Parity) :
    SerialTtyOptions :=
  { c with parity := parity }

/-- `SerialTtyOptions::set_stop_bits`. -/
def SerialTtyOptions.set_stop_bits (c : SerialTtyOptions) (stop_bits : StopBits) :
    SerialTtyOptions :=
  { c with stop_bits := stop_bits }

/-- `SerialTtyOptions::set_timeout`. -/
def SerialTtyOptions.set_timeout (c : SerialTtyOptions) (timeout : Duration) :
    SerialTtyOptions :=
  { c with timeout := timeout }

/-- `mio_serial::SerialPortBuilder` restricted to the parameters this code
sets: `mio_serial::new(path, baud)` followed by the chained setters used in
`in_to_builder`. -/
structure SerialPortBuilder where
  path : String
  baud_rate : Nat
  data_bits : DataBits
  flow_control : FlowControl
  parity : Parity
  stop_bits : StopBits
  timeout : Duration
  dtr_on_open : Bool
deriving DecidableEq

/-- `SerialTtyOptions::in_to_builder`: translate the configuration into a
builder, with `dtr_on_open(self.dtr_on_open.unwrap_or(true))`. -/
def SerialTtyOptions.in_to_builder (c : SerialTtyOptions) : SerialPortBuilder :=
  { path := c.name
    baud_rate := c.baud_rate
    data_bits := c.data_bits
    flow_control := c.flow_control
    parity := c.parity
    stop_bits := c.stop_bits
    timeout := c.timeout
    dtr_on_open := c.dtr_on_open.getD true }

/-! ## Device enumeration -/

/-- `mio_serial::UsbPortInfo` (the fields the crate exposes; this code only
reads `manufacturer`). -/
structure UsbPortInfo where
  vid : Nat
  pid : Nat
  serial_number : Option String
  manufacturer : Option String
  product : Option String
deriving DecidableEq

/-- `mio_serial::SerialPortType`: the classification carried by an enumerated
descriptor. -/
inductive SerialPortType
  | UsbPort (info : UsbPortInfo)
  | PciPort
  | BluetoothPort
  | Unknown
deriving DecidableEq

/-- `mio_serial::SerialPortInfo`: one enumerated device descriptor. -/
structure SerialPortInfo where
  port_name : String
  port_type : SerialPortType
deriving DecidableEq

/-! ## Strings: lowercasing and substring containment

Rust's `str::to_lowercase` is embedded as per-character lowercasing
(`String.toLower`; the two agree on the ASCII manufacturer strings at issue),
and `str::contains(pat)` as contiguous-substring containment over the
character list. -/

/-- `pat` is a prefix of `l` (character-by-character equality). -/
def list_is_pre : List Char → List Char → Bool
  | [], _ => true
  | _ :: _, [] => false
  | p :: ps, c :: cs => p == c && list_is_pre ps cs

/-- `pat` occurs as a contiguous substring of the second list. -/
def list_contains_sub (pat : List Char) : List Char → Bool
  | [] => pat.isEmpty
  | c :: cs => list_is_pre pat (c :: cs) || list_contains_sub pat cs

/-- Rust `s.to_lowercase()`, embedded at the character-list level as
per-character lowercasing. -/
def to_lowercase (s : String) : List Char :=
  s.toList.map Char.toLower

/-- Rust `hay.contains(pat)`: substring containment, on the character list a
lowercasing produced. -/
def contains_sub (hay : List Char) (pat : String) : Bool :=
  list_contains_sub pat.toList hay

/-! ## Errors and streams -/

/-- The `std::io::ErrorKind` values this code can produce or propagate. -/
inductive ErrorKind
  | InvalidData
  | OtherKind (tag : Nat)
deriving DecidableEq

/-- A `std::io::Error`: a kind plus a message.  `mio_serial::Error` values
crossing the `?` boundary are converted into this shape by the `From`
instances the source relies on; we embed both as this one type. -/
structure IoError where
  kind : ErrorKind
  msg : String
deriving DecidableEq

/-- The one error value `new` itself constructs, used verbatim on both the
enumeration-failed path and the no-matching-descriptor path:
`Error::new(ErrorKind::InvalidData, "Unknown SerialTty Call")`. -/
def unknown_serial_tty_error : IoError :=
  { kind := ErrorKind.InvalidData, msg := "Unknown SerialTty Call" }

/-- A `mio_serial::SerialStream`: the live OS handle.  Observables: the
parameters it was opened with and whether the handle is in non-blocking
mode. -/
structure SerialStream where
  opened_with : SerialPortBuilder
  nonblocking : Bool
deriving DecidableEq

/-- The OS/library environment `new` and `open` run against.
`available_ports` is the result of `mio_serial::available_ports()` (`none`
means the OS listing call itself failed); `sys_open` is
`mio_serial::SerialStream::open` on a builder; `quirk_open` is
`prolific_apple_patch::open` (see `quirk_open_contract`). -/
structure OsEnv where
  available_ports : Option (List SerialPortInfo)
  sys_open : SerialPortBuilder → Except IoError SerialStream
  quirk_open : SerialTtyOptions → Except IoError SerialStream

/-- Trace entries: the OS calls `new` can perform, in order. -/
inductive OsCall
  | EnumerateDevices
  | SysOpen
  | QuirkOpen
deriving DecidableEq

/-! ## Platform opener -/

/-- Modelled from the spec: `unix::set_nonblocking_serial` lives in
`src/serial_tty/unix.rs`, which is not in the source tree.  §4.4 step 3:
"Force the resulting handle into non-blocking mode."  It mutates the handle's
file-status flags; the stream's other observables are untouched. -/
def set_nonblocking_serial (s : SerialStream) : SerialStream :=
  { s with nonblocking := true }

/-- Modelled from the spec: `windows::open` lives in
`src/serial_tty/windows.rs`, which is not in the source tree.  §4.4: the
opener translates the configuration, opens the named device, and forces the
resulting handle into non-blocking mode. -/
def windows_open (sys_open : SerialPortBuilder → Except IoError SerialStream)
    (config : SerialTtyOptions) : Except IoError SerialStream :=
  match sys_open config.in_to_builder with
  | Except.error e => Except.error e
  | Except.ok s => Except.ok (set_nonblocking_serial s)

/-- `fn open(config) -> mio_serial::Result<SerialStream>` with its two `cfg`
branches: on unix, `SerialStream::open(&config.in_to_builder())?` followed by
`unix::set_nonblocking_serial(&stream)`; on windows, `windows::open(config)`.
The build's target platform selects the branch. -/
def open_tty (env : OsEnv) (os : TargetOS) (config : SerialTtyOptions) :
    Except IoError SerialStream :=
  if os = TargetOS.windows then
    windows_open env.sys_open config
  else
    match env.sys_open config.in_to_builder with
    | Except.error e => Except.error e
    | Except.ok stream => Except.ok (set_nonblocking_serial stream)

/-! ## Transport handle -/

/-- `alacritty_terminal::event::WindowSize` (four `u16` fields). -/
structure WindowSize where
  num_lines : Nat
  num_cols : Nat
  cell_width : Nat
  cell_height : Nat
deriving DecidableEq

/-- `pub struct SerialTty { stream: mio_serial::SerialStream }`. -/
structure SerialTty where
  stream : SerialStream
deriving DecidableEq

/-- `impl OnResize for SerialTty`: the body is empty ("serial tty do nothing
for window size event"), so the handle after the call is the handle before
the call. -/
def SerialTty.on_resize (t : SerialTty) (_window_size : WindowSize) : SerialTty :=
  t

/-! ## Quirk routing and `new` -/

/-- The operating systems selected by the routing branch's
`cfg(any(target_os = "macos", target_os = "ios"))`. -/
def affected_os (os : TargetOS) : Bool :=
  os == TargetOS.macos || os == TargetOS.ios

/-- The open strategies of §4.3/§4.4: the standard opener (`open`) versus the
specialized one (`prolific_apple_patch::open`). -/
inductive OpenStrategy
  | Standard
  | Specialized
deriving DecidableEq

/-- The routing decision inlined in `new`'s `match &matched.port_type`
branch: for a USB descriptor, take the manufacturer string (absent treated as
`""`), and on macOS/iOS pick the specialized path when its lowercasing
contains `"prolific"`; in every other case pick the standard path. -/
def route (os : TargetOS) (pt : SerialPortType) : OpenStrategy :=
  match pt with
  | SerialPortType.UsbPort u =>
      let mfn := u.manufacturer.getD ""
      if affected_os os && contains_sub (to_lowercase mfn) "prolific" then
        OpenStrategy.Specialized
      else
        OpenStrategy.Standard
  | _ => OpenStrategy.Standard

/-- The standard-open leg of `new`: `open(config)?` wrapped into a
`SerialTty`, with the trace of OS calls made so far. -/
def std_open_result (env : OsEnv) (os : TargetOS) (config : SerialTtyOptions) :
    Except IoError SerialTty × List OsCall :=
  match open_tty env os config with
  | Except.ok s => (Except.ok { stream := s }, [OsCall.EnumerateDevices, OsCall.SysOpen])
  | Except.error e => (Except.error e, [OsCall.EnumerateDevices, OsCall.SysOpen])

/-- The specialized-open leg: `prolific_apple_patch::open(config)?` wrapped
into a `SerialTty`, with its trace. -/
def quirk_open_result (env : OsEnv) (config : SerialTtyOptions) :
    Except IoError SerialTty × List OsCall :=
  match env.quirk_open config with
  | Except.ok s => (Except.ok { stream := s }, [OsCall.EnumerateDevices, OsCall.QuirkOpen])
  | Except.error e => (Except.error e, [OsCall.EnumerateDevices, OsCall.QuirkOpen])

/-- `pub fn new(config, _window_size, _window_id) -> Result<SerialTty>`:
enumerate the visible ports (failing the whole call with
`unknown_serial_tty_error` when the listing call fails); find the first
descriptor whose `port_name` equals `config.name` (failing with the same
error value when none matches); route USB descriptors through the
Prolific/Apple quirk check; open via the selected strategy.  The second
component is the ordered trace of OS calls performed.  The window size and
window id parameters are unused by the source and omitted here. -/
def new (env : OsEnv) (os : TargetOS) (config : SerialTtyOptions) :
    Except IoError SerialTty × List OsCall :=
  match env.available_ports with
  | some ports =>
      match ports.find? (fun x => x.port_name == config.name) with
      | some matched =>
          match matched.port_type with
          | SerialPortType.UsbPort u =>
              let mfn := u.manufacturer.getD ""
              if affected_os os then
                if contains_sub (to_lowercase mfn) "prolific" then
                  quirk_open_result env config
                else
                  std_open_result env os config
              else
                std_open_result env os config
          | _ => std_open_result env os config
      | none => (Except.error unknown_serial_tty_error, [OsCall.EnumerateDevices])
  | none => (Except.error unknown_serial_tty_error, [OsCall.EnumerateDevices])

/-! ## Reachable configurations

The configuration surface of §4.1/§6: default construction followed by any
sequence of the seven public update operations. -/

/-- One application of a public update operation, with its argument. -/
inductive ConfigUpdate
  | SetName (path : String)
  | SetBaudRate (baud_rate : Nat)
  | SetDataBits (data_bits : DataBits)
  | SetFlowControl (flow_control : FlowControl)
  | SetParity (parity : Parity)
  | SetStopBits (stop_bits : StopBits)
  | SetTimeout (timeout : Duration)
deriving DecidableEq

/-- Dispatch one update to the corresponding `SerialTtyOptions` method. -/
def applyUpdate (c : SerialTtyOptions) : ConfigUpdate → SerialTtyOptions
  | ConfigUpdate.SetName s => c.set_name s
  | ConfigUpdate.SetBaudRate b => c.set_baud_rate b
  | ConfigUpdate.SetDataBits d => c.set_data_bits d
  | ConfigUpdate.SetFlowControl f => c.set_flow_control f
  | ConfigUpdate.SetParity p => c.set_parity p
  | ConfigUpdate.SetStopBits s => c.set_stop_bits s
  | ConfigUpdate.SetTimeout t => c.set_timeout t

/-- Apply a sequence of updates left to right. -/
def applyUpdates (c : SerialTtyOptions) (us : List ConfigUpdate) :
    SerialTtyOptions :=
  us.foldl applyUpdate c

/-- A configuration is reachable (for a build on platform `os`) when some
sequence of public updates produces it from the default. -/
def reachable (os : TargetOS) (c : SerialTtyOptions) : Prop :=
  ∃ us : List ConfigUpdate, c = applyUpdates (SerialTtyOptions.default os) us

/-- The configuration invariant of §3: every enumerated field lies in its
fixed set (§6 lists the sets) and the device identifier is non-empty. -/
def configInvariant (c : SerialTtyOptions) : Prop :=
  c.data_bits ∈ [DataBits.Five, DataBits.Six, DataBits.Seven, DataBits.Eight] ∧
  c.flow_control ∈ [FlowControl.None, FlowControl.Software, FlowControl.Hardware] ∧
  c.parity ∈ [Parity.None, Parity.Odd, Parity.Even] ∧
  c.stop_bits ∈ [StopBits.One, StopBits.Two] ∧
  c.name ≠ ""

/-- `us` contains no `SetName` with an empty argument (decidable form). -/
def nonempty_names (us : List ConfigUpdate) : Bool :=
  us.all fun u =>
    match u with
    | ConfigUpdate.SetName s => !(s == "")
    | _ => true

/-! ## Concrete fixtures

Named environments used to witness the theorems at concrete inputs. -/

/-- Oracle for `SerialStream::open`: every open attempt succeeds and the raw
handle comes back in blocking mode (non-blocking must then be forced). -/
def sys_open_blocking : SerialPortBuilder → Except IoError SerialStream :=
  fun b => Except.ok { opened_with := b, nonblocking := false }

/-- Oracle for the quirk open path: succeeds with a non-blocking handle. -/
def quirk_open_ok : SerialTtyOptions → Except IoError SerialStream :=
  fun c => Except.ok { opened_with := c.in_to_builder, nonblocking := true }

/-- Environment whose enumeration lists one PCI device named "/dev/ttyS1". -/
def env_miss : OsEnv :=
  { available_ports :=
      some [{ port_name := "/dev/ttyS1", port_type := SerialPortType.PciPort }]
    sys_open := sys_open_blocking
    quirk_open := quirk_open_ok }

/-- Environment whose OS enumeration call fails. -/
def env_enum_fail : OsEnv :=
  { available_ports := none
    sys_open := sys_open_blocking
    quirk_open := quirk_open_ok }

/-- A Prolific USB descriptor (PL2303 identifiers) named "/dev/ttyUSB0". -/
def prolific_port : SerialPortInfo :=
  { port_name := "/dev/ttyUSB0"
    port_type := SerialPortType.UsbPort
      { vid := 0x067b, pid := 0x2303, serial_number := none
        manufacturer := some "Prolific Technology", product := none } }

/-- A USB descriptor named "/dev/ttyUSB0" with no manufacturer string. -/
def anon_usb_port : SerialPortInfo :=
  { port_name := "/dev/ttyUSB0"
    port_type := SerialPortType.UsbPort
      { vid := 0x0403, pid := 0x6001, serial_number := none
        manufacturer := none, product := none } }

/-- Environment listing the Prolific descriptor only. -/
def env_prolific : OsEnv :=
  { available_ports := some [prolific_port]
    sys_open := sys_open_blocking
    quirk_open := quirk_open_ok }

/-- Environment listing the manufacturer-less USB descriptor only. -/
def env_anon_usb : OsEnv :=
  { available_ports := some [anon_usb_port]
    sys_open := sys_open_blocking
    quirk_open := quirk_open_ok }

/-! ## Helper lemmas -/

/-- The standard-open leg always performs exactly the enumeration call and
one standard open call. -/
theorem std_open_result_trace (env : OsEnv) (os : TargetOS)
    (config : SerialTtyOptions) :
    (std_open_result env os config).2 = [OsCall.EnumerateDevices, OsCall.SysOpen] := by
  unfold std_open_result
  cases open_tty env os config <;> rfl

/-- The specialized-open leg always performs exactly the enumeration call and
one quirk open call. -/
theorem quirk_open_result_trace (env : OsEnv) (config : SerialTtyOptions) :
    (quirk_open_result env config).2 = [OsCall.EnumerateDevices, OsCall.QuirkOpen] := by
  unfold quirk_open_result
  cases env.quirk_open config <;> rfl

/-- `affected_os` holds exactly on macOS and iOS. -/
theorem affected_os_iff (os : TargetOS) :
    affected_os os = true ↔ os = TargetOS.macos ∨ os = TargetOS.ios := by
  cases os <;> simp [affected_os]

/-- Every `DataBits` value lies in the fixed set of §6. -/
theorem dataBits_mem_set (d : DataBits) :
    d ∈ [DataBits.Five, DataBits.Six, DataBits.Seven, DataBits.Eight] := by
  cases d <;> simp

/-- Every `FlowControl` value lies in the fixed set of §6. -/
theorem flowControl_mem_set (f : FlowControl) :
    f ∈ [FlowControl.None, FlowControl.Software, FlowControl.Hardware] := by
  cases f <;> simp

/-- Every `Parity` value lies in the fixed set of §6. -/
theorem parity_mem_set (p : Parity) :
    p ∈ [Parity.None, Parity.Odd, Parity.Even] := by
  cases p <;> simp

/-- Every `StopBits` value lies in the fixed set of §6. -/
theorem stopBits_mem_set (s : StopBits) :
    s ∈ [StopBits.One, StopBits.Two] := by
  cases s <;> simp

/-- The default configuration satisfies the §3 invariant on every platform. -/
theorem configInvariant_default (os : TargetOS) :
    configInvariant (SerialTtyOptions.default os) := by
  cases os <;> exact ⟨by decide, by decide, by decide, by decide, by decide⟩

/-! ## Claim theorems -/

/-- C5: for every window-size value, the geometry-change hook `on_resize` is a
no-op: the handle after the call is exactly the handle before it, applying it
any number of times (over any list of sizes) leaves the handle unchanged, and
every observation of the handle (any function of it, hence all subsequent I/O
behaviour) is unaffected. -/
theorem on_resize_noop :
    (∀ (t : SerialTty) (ws : WindowSize), t.on_resize ws = t) ∧
    (∀ (t : SerialTty) (l : List WindowSize), l.foldl SerialTty.on_resize t = t) ∧
    (∀ {α : Type} (f : SerialTty → α) (t : SerialTty) (ws : WindowSize),
        f (t.on_resize ws) = f t) := by
  refine ⟨fun t ws => rfl, fun t l => ?_, fun f t ws => rfl⟩
  induction l generalizing t with
  | nil => rfl
  | cons ws l ih => exact ih t

/-- C6: the default configuration is exactly the platform-chosen default
device identifier, 115200 baud, 8 data bits, no flow control, no parity,
1 stop bit, a zero advisory timeout, and DTR-on-open asserted; across
platforms the defaults differ only in the device identifier. -/
theorem default_options_spec :
    (∀ os : TargetOS, SerialTtyOptions.default os =
      { name := DEFAULT_TTY_PATH os
        baud_rate := 115200
        data_bits := DataBits.Eight
        flow_control := FlowControl.None
        parity := Parity.None
        stop_bits := StopBits.One
        timeout := 0
        dtr_on_open := some true }) ∧
    (∀ os1 os2 : TargetOS, SerialTtyOptions.default os1 =
      (SerialTtyOptions.default os2).set_name (DEFAULT_TTY_PATH os1)) :=
  ⟨fun _ => rfl, fun _ _ => rfl⟩

/-- C7: translating a configuration for the open step passes the DTR-on-open
setting through exactly: an explicit `some b` is applied as `b`, and the
unspecified tri-state `none` defaults to assert (`true`). -/
theorem in_to_builder_dtr_spec :
    (∀ (c : SerialTtyOptions) (b : Bool), c.dtr_on_open = some b →
        c.in_to_builder.dtr_on_open = b) ∧
    (∀ c : SerialTtyOptions, c.dtr_on_open = none →
        c.in_to_builder.dtr_on_open = true) := by
  constructor
  · intro c b h
    simp [SerialTtyOptions.in_to_builder, h]
  · intro c h
    simp [SerialTtyOptions.in_to_builder, h]

/-- C7 witness: concrete configurations with DTR deasserted, asserted, and
unspecified. -/
theorem in_to_builder_dtr_spec_witness :
    ({ SerialTtyOptions.default TargetOS.linux with
        dtr_on_open := some false } : SerialTtyOptions).in_to_builder.dtr_on_open = false ∧
    (SerialTtyOptions.default TargetOS.linux).in_to_builder.dtr_on_open = true ∧
    ({ SerialTtyOptions.default TargetOS.linux with
        dtr_on_open := none } : SerialTtyOptions).in_to_builder.dtr_on_open = true :=
  ⟨in_to_builder_dtr_spec.1 _ false rfl,
   in_to_builder_dtr_spec.1 _ true rfl,
   in_to_builder_dtr_spec.2 _ rfl⟩

/-- C8: every update operation is a total function (definable in Lean without
partiality, hence no error conditions) returning a new configuration value in
which exactly the named field holds the argument and the seven other fields
are unchanged; the original configuration value is untouched (values are
immutable, the operations are functional updates). -/
theorem setters_update_exactly_one_field (c : SerialTtyOptions) :
    (∀ v, (c.set_name v).name = v ∧ (c.set_name v).baud_rate = c.baud_rate ∧
      (c.set_name v).data_bits = c.data_bits ∧
      (c.set_name v).flow_control = c.flow_control ∧
      (c.set_name v).parity = c.parity ∧ (c.set_name v).stop_bits = c.stop_bits ∧
      (c.set_name v).timeout = c.timeout ∧
      (c.set_name v).dtr_on_open = c.dtr_on_open) ∧
    (∀ v, (c.set_baud_rate v).baud_rate = v ∧ (c.set_baud_rate v).name = c.name ∧
      (c.set_baud_rate v).data_bits = c.data_bits ∧
      (c.set_baud_rate v).flow_control = c.flow_control ∧
      (c.set_baud_rate v).parity = c.parity ∧
      (c.set_baud_rate v).stop_bits = c.stop_bits ∧
      (c.set_baud_rate v).timeout = c.timeout ∧
      (c.set_baud_rate v).dtr_on_open = c.dtr_on_open) ∧
    (∀ v, (c.set_data_bits v).data_bits = v ∧ (c.set_data_bits v).name = c.name ∧
      (c.set_data_bits v).baud_rate = c.baud_rate ∧
      (c.set_data_bits v).flow_control = c.flow_control ∧
      (c.set_data_bits v).parity = c.parity ∧
      (c.set_data_bits v).stop_bits = c.stop_bits ∧
      (c.set_data_bits v).timeout = c.timeout ∧
      (c.set_data_bits v).dtr_on_open = c.dtr_on_open) ∧
    (∀ v, (c.set_flow_control v).flow_control = v ∧
      (c.set_flow_control v).name = c.name ∧
      (c.set_flow_control v).baud_rate = c.baud_rate ∧
      (c.set_flow_control v).data_bits = c.data_bits ∧
      (c.set_flow_control v).parity = c.parity ∧
      (c.set_flow_control v).stop_bits = c.stop_bits ∧
      (c.set_flow_control v).timeout = c.timeout ∧
      (c.set_flow_control v).dtr_on_open = c.dtr_on_open) ∧
    (∀ v, (c.set_parity v).parity = v ∧ (c.set_parity v).name = c.name ∧
      (c.set_parity v).baud_rate = c.baud_rate ∧
      (c.set_parity v).data_bits = c.data_bits ∧
      (c.set_parity v).flow_control = c.flow_control ∧
      (c.set_parity v).stop_bits = c.stop_bits ∧
      (c.set_parity v).timeout = c.timeout ∧
      (c.set_parity v).dtr_on_open = c.dtr_on_open) ∧
    (∀ v, (c.set_stop_bits v).stop_bits = v ∧ (c.set_stop_bits v).name = c.name ∧
      (c.set_stop_bits v).baud_rate = c.baud_rate ∧
      (c.set_stop_bits v).data_bits = c.data_bits ∧
      (c.set_stop_bits v).flow_control = c.flow_control ∧
      (c.set_stop_bits v).parity = c.parity ∧
      (c.set_stop_bits v).timeout = c.timeout ∧
      (c.set_stop_bits v).dtr_on_open = c.dtr_on_open) ∧
    (∀ v, (c.set_timeout v).timeout = v ∧ (c.set_timeout v).name = c.name ∧
      (c.set_timeout v).baud_rate = c.baud_rate ∧
      (c.set_timeout v).data_bits = c.data_bits ∧
      (c.set_timeout v).flow_control = c.flow_control ∧
      (c.set_timeout v).parity = c.parity ∧
      (c.set_timeout v).stop_bits = c.stop_bits ∧
      (c.set_timeout v).dtr_on_open = c.dtr_on_open) := by
  refine ⟨fun v => ?_, fun v => ?_, fun v => ?_, fun v => ?_, fun v => ?_,
    fun v => ?_, fun v => ?_⟩ <;>
    exact ⟨rfl, rfl, rfl, rfl, rfl, rfl, rfl, rfl⟩

/-- C1: when enumeration succeeds, resolution is exact, case-sensitive string
equality: the descriptor `new` proceeds with is an enumerated descriptor
whose `port_name` equals the configured name; and when no enumerated
descriptor has an equal name, `new` fails with the device-not-found error and
the call trace contains only the enumeration call — no OS open call of either
kind is attempted. -/
theorem new_resolves_exact_name_or_fails (env : OsEnv) (os : TargetOS)
    (config : SerialTtyOptions) (ports : List SerialPortInfo)
    (h : env.available_ports = some ports) :
    ((∀ p ∈ ports, p.port_name ≠ config.name) →
        new env os config =
          (Except.error unknown_serial_tty_error, [OsCall.EnumerateDevices])) ∧
    (∀ matched, ports.find? (fun x => x.port_name == config.name) = some matched →
        matched ∈ ports ∧ matched.port_name = config.name) := by
  constructor
  · intro hnone
    have hfind : ports.find? (fun x => x.port_name == config.name) = none := by
      rw [List.find?_eq_none]
      intro p hp
      simpa using hnone p hp
    simp [new, h, hfind]
  · intro matched hfind
    refine ⟨List.mem_of_find?_eq_some hfind, ?_⟩
    have := List.find?_some hfind
    simpa using this

/-- C1 witness: the configured default Linux name "/dev/ttyUSB0" is absent
from an enumeration listing only "/dev/ttyS1", so `new` fails with the
device-not-found error after the enumeration call alone. -/
theorem new_resolves_exact_name_or_fails_witness :
    new env_miss TargetOS.linux (SerialTtyOptions.default TargetOS.linux) =
      (Except.error unknown_serial_tty_error, [OsCall.EnumerateDevices]) :=
  (new_resolves_exact_name_or_fails env_miss TargetOS.linux
      (SerialTtyOptions.default TargetOS.linux) _ rfl).1 (by decide)

/-- C3: whenever the platform opener succeeds — on either the unix branch or
the windows branch, for every configuration and every behaviour of the
underlying OS open call — the stream handed back is in non-blocking mode. -/
theorem open_tty_forces_nonblocking (env : OsEnv) (os : TargetOS)
    (config : SerialTtyOptions) (s : SerialStream)
    (h : open_tty env os config = Except.ok s) :
    s.nonblocking = true := by
  unfold open_tty windows_open at h
  split at h <;>
  · cases hs : env.sys_open config.in_to_builder with
    | error e => rw [hs] at h; cases h
    | ok stream =>
        rw [hs] at h
        cases h
        rfl

/-- C3 witness: an OS open oracle that returns a blocking handle, on the
Linux default configuration; the opener returns it forced non-blocking. -/
theorem open_tty_forces_nonblocking_witness :
    ({ opened_with := (SerialTtyOptions.default TargetOS.linux).in_to_builder
       nonblocking := true } : SerialStream).nonblocking = true :=
  open_tty_forces_nonblocking env_miss TargetOS.linux
    (SerialTtyOptions.default TargetOS.linux) _ rfl

/-- C4 counterexample: the error `new` returns when the OS enumeration call
fails is the very same value (`InvalidData`, "Unknown SerialTty Call") it
returns when enumeration succeeds but no descriptor matches the configured
name, so the two failure modes are not distinguishable by the returned
error, contrary to the claim's taxonomy distinction. -/
theorem enumeration_and_not_found_errors_identical :
    (new env_enum_fail TargetOS.linux (SerialTtyOptions.default TargetOS.linux)).1 =
      Except.error unknown_serial_tty_error ∧
    (new env_miss TargetOS.linux (SerialTtyOptions.default TargetOS.linux)).1 =
      Except.error unknown_serial_tty_error ∧
    (new env_enum_fail TargetOS.linux (SerialTtyOptions.default TargetOS.linux)).1 =
      (new env_miss TargetOS.linux (SerialTtyOptions.default TargetOS.linux)).1 :=
  ⟨rfl, rfl, rfl⟩

/-- C4 amended: when the OS device-enumeration call fails, transport creation
fails immediately — no partial results, no open attempted — with the fixed
error value (`InvalidData`, "Unknown SerialTty Call"); that value is however
identical to the one returned when no descriptor matches the configured
name, so the two failure modes are not distinguishable from the returned
error alone. -/
theorem new_enumeration_failure_behavior (env : OsEnv) (os : TargetOS)
    (config : SerialTtyOptions) (h : env.available_ports = none) :
    new env os config =
      (Except.error unknown_serial_tty_error, [OsCall.EnumerateDevices]) ∧
    (new env os config).1 =
      (new env_miss TargetOS.linux (SerialTtyOptions.default TargetOS.linux)).1 := by
  constructor
  · simp [new, h]
  · simp [new, h]
    rfl

/-- C4 witness: the amended theorem at the concrete failing environment. -/
theorem new_enumeration_failure_behavior_witness :
    new env_enum_fail TargetOS.linux (SerialTtyOptions.default TargetOS.linux) =
      (Except.error unknown_serial_tty_error, [OsCall.EnumerateDevices]) :=
  (new_enumeration_failure_behavior env_enum_fail TargetOS.linux
      (SerialTtyOptions.default TargetOS.linux) rfl).1

/-- C2: routing selects the specialized strategy exactly when the descriptor
is USB-classified, the platform is an affected one, and the (possibly absent,
then empty) manufacturer string case-insensitively contains the known vendor
marker; routing is a total function into the two strategies, so in every
other combination it selects the standard strategy and never produces an
error. -/
theorem route_specialized_iff :
    (∀ (os : TargetOS) (pt : SerialPortType),
        route os pt = OpenStrategy.Specialized ↔
          ∃ u, pt = SerialPortType.UsbPort u ∧ affected_os os = true ∧
            contains_sub (to_lowercase (u.manufacturer.getD "")) "prolific" = true) ∧
    (∀ (os : TargetOS) (pt : SerialPortType),
        route os pt = OpenStrategy.Standard ∨
          route os pt = OpenStrategy.Specialized) := by
  constructor
  · intro os pt
    cases pt with
    | UsbPort u =>
        simp only [route]
        by_cases hb : (affected_os os &&
            contains_sub (to_lowercase (u.manufacturer.getD "")) "prolific") = true
        · rw [if_pos hb]
          rw [Bool.and_eq_true] at hb
          simp [hb.1, hb.2]
        · rw [if_neg hb]
          constructor
          · intro hc
            exact OpenStrategy.noConfusion hc
          · rintro ⟨u2, hu, ha, hcon⟩
            injection hu with hu2
            subst hu2
            exact absurd (show (affected_os os &&
                contains_sub (to_lowercase (u.manufacturer.getD "")) "prolific") = true by
              rw [Bool.and_eq_true]; exact ⟨ha, hcon⟩) hb
    | PciPort => simp [route]
    | BluetoothPort => simp [route]
    | Unknown => simp [route]
  · intro os pt
    cases pt with
    | UsbPort u =>
        simp only [route]
        by_cases hb : (affected_os os &&
            contains_sub (to_lowercase (u.manufacturer.getD "")) "prolific") = true
        · rw [if_pos hb]; exact Or.inr rfl
        · rw [if_neg hb]; exact Or.inl rfl
    | PciPort => exact Or.inl rfl
    | BluetoothPort => exact Or.inl rfl
    | Unknown => exact Or.inl rfl

/-- C2 witness: the Prolific descriptor routes specialized on macOS and
standard on Linux; a USB descriptor with no manufacturer string routes
standard even on macOS. -/
theorem route_specialized_iff_witness :
    route TargetOS.macos prolific_port.port_type = OpenStrategy.Specialized ∧
    route TargetOS.linux prolific_port.port_type = OpenStrategy.Standard ∧
    route TargetOS.macos anon_usb_port.port_type = OpenStrategy.Standard := by
  refine ⟨(route_specialized_iff.1 _ _).mpr ⟨_, rfl, rfl, by decide⟩, ?_, ?_⟩
  · rcases route_specialized_iff.2 TargetOS.linux prolific_port.port_type with h | h
    · exact h
    · rcases (route_specialized_iff.1 _ _).mp h with ⟨u, _, ha, _⟩
      exact absurd ha (by decide)
  · rcases route_specialized_iff.2 TargetOS.macos anon_usb_port.port_type with h | h
    · exact h
    · rcases (route_specialized_iff.1 _ _).mp h with ⟨u, hu, _, hcon⟩
      simp only [anon_usb_port] at hu
      injection hu with hu2
      subst hu2
      exact absurd hcon (by decide)

/-- One public update preserves the invariant when any SetName argument it
carries is non-empty. -/
theorem configInvariant_applyUpdate (c : SerialTtyOptions) (u : ConfigUpdate)
    (hc : configInvariant c)
    (hn : ∀ s, u = ConfigUpdate.SetName s → s ≠ "") :
    configInvariant (applyUpdate c u) := by
  obtain ⟨_, _, _, _, hname⟩ := hc
  cases u with
  | SetName s =>
      exact ⟨dataBits_mem_set _, flowControl_mem_set _, parity_mem_set _,
        stopBits_mem_set _, hn s rfl⟩
  | SetBaudRate b =>
      exact ⟨dataBits_mem_set _, flowControl_mem_set _, parity_mem_set _,
        stopBits_mem_set _, hname⟩
  | SetDataBits d =>
      exact ⟨dataBits_mem_set _, flowControl_mem_set _, parity_mem_set _,
        stopBits_mem_set _, hname⟩
  | SetFlowControl f =>
      exact ⟨dataBits_mem_set _, flowControl_mem_set _, parity_mem_set _,
        stopBits_mem_set _, hname⟩
  | SetParity p =>
      exact ⟨dataBits_mem_set _, flowControl_mem_set _, parity_mem_set _,
        stopBits_mem_set _, hname⟩
  | SetStopBits s =>
      exact ⟨dataBits_mem_set _, flowControl_mem_set _, parity_mem_set _,
        stopBits_mem_set _, hname⟩
  | SetTimeout t =>
      exact ⟨dataBits_mem_set _, flowControl_mem_set _, parity_mem_set _,
        stopBits_mem_set _, hname⟩

/-- A sequence of public updates with non-empty SetName arguments preserves
the invariant. -/
theorem configInvariant_applyUpdates (us : List ConfigUpdate)
    (c : SerialTtyOptions) (hc : configInvariant c)
    (hn : nonempty_names us = true) :
    configInvariant (applyUpdates c us) := by
  induction us generalizing c with
  | nil => exact hc
  | cons u us ih =>
      rw [nonempty_names, List.all_cons, Bool.and_eq_true] at hn
      have hu : ∀ s, u = ConfigUpdate.SetName s → s ≠ "" := by
        intro s hs
        subst hs
        simpa using hn.1
      exact ih (applyUpdate c u) (configInvariant_applyUpdate c u hc hu) hn.2

/-- C9 counterexample: `set_name` accepts the empty string verbatim, so the
configuration reached from the default by `set_name ""` is reachable through
the public interface yet has an empty device identifier, violating the
claimed invariant. -/
theorem reachable_config_violates_invariant :
    reachable TargetOS.linux
      (applyUpdates (SerialTtyOptions.default TargetOS.linux)
        [ConfigUpdate.SetName ""]) ∧
    ¬ configInvariant
      (applyUpdates (SerialTtyOptions.default TargetOS.linux)
        [ConfigUpdate.SetName ""]) :=
  ⟨⟨[ConfigUpdate.SetName ""], rfl⟩, fun h => h.2.2.2.2 rfl⟩

/-- C9 amended: every configuration reached from the default by a sequence of
public updates has all enumerated fields inside their fixed sets, and its
device identifier is non-empty provided every `set_name` in the sequence was
given a non-empty argument; `set_name` itself accepts any string, so the
non-emptiness half of the invariant is not maintained unconditionally. -/
theorem reachable_invariant_with_nonempty_names (os : TargetOS)
    (c : SerialTtyOptions) (us : List ConfigUpdate)
    (hreach : c = applyUpdates (SerialTtyOptions.default os) us)
    (hn : nonempty_names us = true) :
    configInvariant c := by
  subst hreach
  exact configInvariant_applyUpdates us _ (configInvariant_default os) hn

/-- C9 witness: a concrete two-update sequence with a non-empty name. -/
theorem reachable_invariant_with_nonempty_names_witness :
    configInvariant (applyUpdates (SerialTtyOptions.default TargetOS.linux)
      [ConfigUpdate.SetName "/dev/ttyACM0", ConfigUpdate.SetBaudRate 9600]) :=
  reachable_invariant_with_nonempty_names TargetOS.linux _ _ rfl (by decide)

/-- C10: the specialized open path is reachable only on macOS/iOS builds; on
those builds, with a matched USB descriptor, it is taken exactly when the
lowercased manufacturer string (absent treated as empty) contains
"prolific"; and on every unaffected platform `new` runs the standard open
path whatever the matched descriptor carries, so the manufacturer string is
never consulted there. -/
theorem quirk_path_platform_and_marker :
    (∀ (env : OsEnv) (os : TargetOS) (config : SerialTtyOptions),
        OsCall.QuirkOpen ∈ (new env os config).2 →
          os = TargetOS.macos ∨ os = TargetOS.ios) ∧
    (∀ (env : OsEnv) (os : TargetOS) (config : SerialTtyOptions)
        (ports : List SerialPortInfo) (matched : SerialPortInfo)
        (u : UsbPortInfo),
        env.available_ports = some ports →
        ports.find? (fun x => x.port_name == config.name) = some matched →
        matched.port_type = SerialPortType.UsbPort u →
        affected_os os = true →
        (OsCall.QuirkOpen ∈ (new env os config).2 ↔
          contains_sub (to_lowercase (u.manufacturer.getD "")) "prolific" = true)) ∧
    (∀ (env : OsEnv) (os : TargetOS) (config : SerialTtyOptions)
        (ports : List SerialPortInfo) (matched : SerialPortInfo),
        env.available_ports = some ports →
        ports.find? (fun x => x.port_name == config.name) = some matched →
        affected_os os = false →
        new env os config = std_open_result env os config) := by
  refine ⟨?_, ?_, ?_⟩
  · intro env os config hq
    cases henum : env.available_ports with
    | none => simp [new, henum] at hq
    | some ports =>
        cases hfind : ports.find? (fun x => x.port_name == config.name) with
        | none => simp [new, henum, hfind] at hq
        | some matched =>
            cases hpt : matched.port_type with
            | UsbPort u =>
                simp only [new, henum, hfind, hpt] at hq
                by_cases ha : affected_os os = true
                · exact (affected_os_iff os).mp ha
                · rw [if_neg ha, std_open_result_trace] at hq
                  simp at hq
            | PciPort =>
                rw [new, henum] at hq
                simp only [hfind, hpt, std_open_result_trace] at hq
                simp at hq
            | BluetoothPort =>
                rw [new, henum] at hq
                simp only [hfind, hpt, std_open_result_trace] at hq
                simp at hq
            | Unknown =>
                rw [new, henum] at hq
                simp only [hfind, hpt, std_open_result_trace] at hq
                simp at hq
  · intro env os config ports matched u henum hfind hpt ha
    simp only [new, henum, hfind, hpt]
    rw [if_pos ha]
    by_cases hcon :
        contains_sub (to_lowercase (u.manufacturer.getD "")) "prolific" = true
    · rw [if_pos hcon, quirk_open_result_trace]
      simp [hcon]
    · rw [if_neg hcon, std_open_result_trace]
      simp [hcon]
  · intro env os config ports matched henum hfind ha
    cases hpt : matched.port_type with
    | UsbPort u =>
        simp only [new, henum, hfind, hpt]
        rw [if_neg (by rw [ha]; exact Bool.false_ne_true)]
    | PciPort => simp [new, henum, hfind, hpt]
    | BluetoothPort => simp [new, henum, hfind, hpt]
    | Unknown => simp [new, henum, hfind, hpt]

/-- C10 witness: on a macOS build, a matched Prolific USB descriptor makes
`new` take the specialized open path. -/
theorem quirk_path_platform_and_marker_witness :
    OsCall.QuirkOpen ∈ (new env_prolific TargetOS.macos
      ((SerialTtyOptions.default TargetOS.macos).set_name "/dev/ttyUSB0")).2 :=
  (quirk_path_platform_and_marker.2.1 env_prolific TargetOS.macos
      ((SerialTtyOptions.default TargetOS.macos).set_name "/dev/ttyUSB0")
      [prolific_port] prolific_port
      { vid := 0x067b, pid := 0x2303, serial_number := none
        manufacturer := some "Prolific Technology", product := none }
      rfl (by decide) rfl rfl).mpr (by decide)

end SerialTtySpec
